import Mathlib

/-!
# Verification of the Plasma Engine gateway core

Shallow embedding of the service-health and authenticated-request-forwarding
subsystem of the gateway (`src/gateway.ts`): service-list parsing, JWT
authentication with optional revocation lookup, per-service health polling,
health/readiness aggregation, and header injection on downstream calls.

JavaScript strings are modelled as Lean `String`; the JS operations used by
the source (`split` on a single-character separator, `trim`, `toUpperCase`,
truthiness of strings) are given explicit executable definitions below.
External effects (JWT verification, the Redis revocation lookup, `fetch`)
are modelled as explicit inputs: the verifier is a function from tokens to
either claims or a verification error, the revocation store is an optional
lookup function, and a `fetch` outcome is a status, a network error, or a
timeout.  The gateway functions themselves are total Lean functions: the
source catches every exception of these operations, and totality of the
embedding is the "never throws to the caller" part of the design.
-/

namespace PlasmaGateway

/-- JS `String.prototype.split` with a single-character separator, on the
character list of a string.  `"".split(sep)` is `[""]`, empty segments are
kept, matching JS semantics. -/
def splitChars (sep : Char) : List Char → List (List Char)
  | [] => [[]]
  | c :: cs =>
    if c = sep then [] :: splitChars sep cs
    else
      match splitChars sep cs with
      | [] => [[c]]
      | h :: t => (c :: h) :: t

/-- JS `String.prototype.split` with a single-character separator. -/
def jsSplit (sep : Char) (s : String) : List String :=
  (splitChars sep s.data).map List.asString

/-- JS `String.prototype.trim`: strip whitespace from both ends. -/
def jsTrim (s : String) : String :=
  ((s.data.dropWhile Char.isWhitespace).reverse.dropWhile Char.isWhitespace).reverse.asString

/-- JS `String.prototype.toUpperCase` (ASCII fragment used by the config). -/
def jsToUpper (s : String) : String :=
  (s.data.map Char.toUpper).asString

/-- JS truthiness of a `string | null | undefined` value: `null`/`undefined`
and the empty string are falsy. -/
def jsTruthy : Option String → Bool
  | none => false
  | some s => s ≠ ""

/-- JS `s.startsWith(p)`. -/
def jsStartsWith (s p : String) : Bool :=
  List.isPrefixOf p.data s.data

/-- JS `s.substring(n)` (for the ASCII headers the source slices). -/
def jsSubstringFrom (s : String) (n : Nat) : String :=
  (s.data.drop n).asString

/-- JS object / `Headers` property write `m[k] = v` (`headers.set(k, v)`):
keys are unique, so the write replaces the existing entry in place and
appends a fresh entry otherwise. -/
def objSet {α : Type} : List (String × α) → String → α → List (String × α)
  | [], k, v => [(k, v)]
  | p :: t, k, v => if p.1 = k then (p.1, v) :: t else p :: objSet t k v

/-- JS object / `Headers` property read `m[k]` (`headers.get(k)`). -/
def objGet {α : Type} (m : List (String × α)) (k : String) : Option α :=
  (m.find? (fun p => p.1 = k)).map Prod.snd

/-- `ServiceConfig` from `gateway.ts`: one backend service descriptor. -/
structure ServiceConfig where
  name : String
  url : String
  healthCheck : String
deriving DecidableEq, Repr

/-- The body of the `.map` inside `parseServiceList` (`gateway.ts` lines
102–114): destructure `pair.split('=')` into its first two components
(`const [name, url] = pair.split('=')`; further components are discarded),
drop the entry when either is missing or empty (JS falsiness), otherwise
build the descriptor with the uppercased name, the trimmed url, and the
health-check URL derived from the trimmed url. -/
def mkServiceEntry (pair : String) : Option ServiceConfig :=
  match jsSplit '=' pair with
  | [] => none
  | [_] => none
  | name :: url :: _ =>
    if name = "" ∨ url = "" then none
    else some { name := jsToUpper name
                url := jsTrim url
                healthCheck := jsTrim url ++ "/health" }

/-- The trimmed, non-empty entries of a raw `SERVICES` string:
`.split(',').map(s => s.trim()).filter(Boolean)` from `parseServiceList`. -/
def serviceEntries (servicesEnv : String) : List String :=
  ((jsSplit ',' servicesEnv).map jsTrim).filter (fun s => s ≠ "")

/-- `parseServiceList` from `gateway.ts` (lines 90–116), as a function of the
raw `SERVICES` environment string.  An empty string yields the empty registry
(the source returns early after a warning); otherwise entries are split on
commas, trimmed, empty entries discarded, each remaining entry parsed by
`mkServiceEntry`, and failed entries dropped (`.filter(service => service !==
null)`). -/
def parseServiceList (servicesEnv : String) : List ServiceConfig :=
  if servicesEnv = "" then []
  else (serviceEntries servicesEnv).filterMap mkServiceEntry

/-! ## Authentication (`authenticateRequest`, `gateway.ts` lines 169–200) -/

/-- Claims of a decoded JWT as the source reads them: `sub`, `email`, and an
optional `roles` claim. -/
structure TokenClaims where
  sub : String
  email : String
  roles : Option (List String)
deriving DecidableEq, Repr

/-- The ways `jwt.verify` rejects a token; every one is thrown as an
exception and caught by `authenticateRequest`'s `try/catch`. -/
inductive VerifyError where
  | malformed
  | invalidSignature
  | expired
  | wrongAlgorithm
deriving DecidableEq, Repr

/-- The `user` field of `AuthContext` in `gateway.ts`. -/
structure AuthUser where
  id : String
  roles : List String
  email : String
deriving DecidableEq, Repr

/-- `AuthContext` from `gateway.ts`: optional user plus the authentication
flag. -/
structure AuthContext where
  user : Option AuthUser := none
  isAuthenticated : Bool
deriving DecidableEq, Repr

/-- `authenticateRequest` from `gateway.ts` (lines 169–200).  `verify`
models `jwt.verify` with the pinned shared secret (claims on success, an
error on any malformed / bad-signature / expired / wrong-algorithm token);
`redisGet` models the optional revocation store (`none` when no Redis client
is configured); `authHeader` is `req.headers.authorization`.  The source
checks `!authHeader || !authHeader.startsWith('Bearer ')`, strips the
7-character `Bearer ` prefix, verifies, consults `blacklist:<token>` when
Redis is configured (an entry counts only when JS-truthy, exactly as
`if (isBlacklisted)` does), and catches every thrown error, returning
`{ isAuthenticated: false }`. -/
def authenticateRequest (verify : String → Except VerifyError TokenClaims)
    (redisGet : Option (String → Option String))
    (authHeader : Option String) : AuthContext :=
  match authHeader with
  | none => { isAuthenticated := false }
  | some h =>
    if h = "" ∨ ¬ jsStartsWith h "Bearer " then { isAuthenticated := false }
    else
      let token := jsSubstringFrom h 7
      match verify token with
      | .error _ => { isAuthenticated := false }
      | .ok decoded =>
        let isBlacklisted :=
          match redisGet with
          | some get => jsTruthy (get ("blacklist:" ++ token))
          | none => false
        if isBlacklisted then { isAuthenticated := false }
        else
          { user := some { id := decoded.sub
                           roles := decoded.roles.getD []
                           email := decoded.email }
            isAuthenticated := true }

/-! ## Health checks (`checkServiceHealth`, `startHealthChecks`) -/

/-- Outcome of the `fetch` to a service's health URL: an HTTP response with
a status code, a network error (the fetch promise rejects), or hitting the
5s `AbortController` timeout (the fetch rejects with an abort error). -/
inductive FetchOutcome where
  | response (status : Nat)
  | networkError
  | timeout
deriving DecidableEq, Repr

/-- The mutable `metrics` object of `gateway.ts`: request/error counters and
the per-service health map.  The map is a JS object keyed by service name;
it is modelled as an association list in insertion order with unique keys
maintained by `setHealth`. -/
structure GatewayMetrics where
  requests : Nat
  errors : Nat
  serviceHealth : List (String × Bool)
deriving DecidableEq, Repr

/-- JS object property write `metrics.serviceHealth[service.name] = v`. -/
def setHealth (m : List (String × Bool)) (name : String) (v : Bool) :
    List (String × Bool) :=
  objSet m name v

/-- JS object property read `metrics.serviceHealth[name]`. -/
def lookupHealth (m : List (String × Bool)) (name : String) : Option Bool :=
  objGet m name

/-- `checkServiceHealth` from `gateway.ts` (lines 205–233) as a state
transformer on the metrics.  A response records `response.ok` (status in
200–299); a rejected fetch (network error or abort timeout) lands in the
`catch`, which records `false`.  Both paths return normally: the function
never rethrows. -/
def checkServiceHealth (service : ServiceConfig) (outcome : FetchOutcome)
    (metrics : GatewayMetrics) : Bool × GatewayMetrics :=
  match outcome with
  | .response status =>
    let isHealthy := decide (200 ≤ status ∧ status ≤ 299)
    (isHealthy,
      { metrics with serviceHealth := setHealth metrics.serviceHealth service.name isHealthy })
  | .networkError =>
    (false, { metrics with serviceHealth := setHealth metrics.serviceHealth service.name false })
  | .timeout =>
    (false, { metrics with serviceHealth := setHealth metrics.serviceHealth service.name false })

/-- One round of the polling loop in `startHealthChecks` (`gateway.ts` lines
238–260): every registered service is checked with its own fetch outcome
(`outcomes` maps a service name to the result of that service's poll), each
check guarded by `.catch(() => false)` so no failure escapes.  The
concurrent `Promise.all` is rendered as a fold; the per-service writes touch
independent keys. -/
def runHealthChecks (services : List ServiceConfig)
    (outcomes : String → FetchOutcome) (metrics : GatewayMetrics) : GatewayMetrics :=
  services.foldl (fun m s => (checkServiceHealth s (outcomes s.name) m).2) metrics

/-- The health recorded for a given fetch outcome: `response.ok` on a
response, `false` on a network error or timeout. -/
def outcomeHealthy : FetchOutcome → Bool
  | .response status => decide (200 ≤ status ∧ status ≤ 299)
  | .networkError => false
  | .timeout => false

/-! ## Observability endpoints (`createApp`, `gateway.ts` lines 341–374) -/

/-- Response of `GET /health` as far as the embedding is concerned: HTTP
status code, `status` string, and the `services` map echoed in the body
(timestamps, uptime and version strings are outside the model). -/
structure HealthResponse where
  statusCode : Nat
  status : String
  services : List (String × Bool)
  requests : Nat
  errors : Nat
deriving DecidableEq, Repr

/-- The `GET /health` handler (`gateway.ts` lines 341–359) as a state
transformer on the metrics: count the healthy entries
(`Object.values(...).filter(Boolean).length`) against the total key count,
report `healthy` with 200 when they agree and `degraded` with 503
otherwise, echoing `metrics.serviceHealth` in the body.  The handler only
reads the metrics, so the state comes back unchanged. -/
def healthEndpoint (metrics : GatewayMetrics) : HealthResponse × GatewayMetrics :=
  let healthyServices := ((metrics.serviceHealth.map Prod.snd).filter (fun b => b)).length
  let totalServices := metrics.serviceHealth.length
  let status := if healthyServices = totalServices then "healthy" else "degraded"
  ({ statusCode := if status = "healthy" then 200 else 503
     status := status
     services := metrics.serviceHealth
     requests := metrics.requests
     errors := metrics.errors }, metrics)

/-- The `GET /ready` handler (`gateway.ts` lines 362–374) as a state
transformer: 200 `ready` when `Object.values(metrics.serviceHealth).every(Boolean)`
holds or the map is empty, 503 `not ready` otherwise. -/
def readyEndpoint (metrics : GatewayMetrics) : (Nat × String) × GatewayMetrics :=
  let allServicesHealthy := (metrics.serviceHealth.map Prod.snd).all (fun b => b)
  if allServicesHealthy ∨ metrics.serviceHealth.length = 0 then
    ((200, "ready"), metrics)
  else
    ((503, "not ready"), metrics)

/-! ## Correlation IDs and downstream forwarding -/

/-- `generateCorrelationId` from `gateway.ts` (lines 265–267), made a
function of its two effectful inputs: the `Date.now()` timestamp and the
`Math.random().toString(36).substr(2, 9)` suffix. -/
def generateCorrelationId (now : Nat) (randSuffix : String) : String :=
  ("gw-" ++ toString now ++ "-") ++ randSuffix

/-- The request-logging middleware's correlation-id assignment
(`gateway.ts` line 327): `req.headers['x-correlation-id'] ||
generateCorrelationId()` — reuse a truthy inbound header value, otherwise
use the freshly generated id. -/
def correlationMiddleware (headerVal : Option String) (freshId : String) : String :=
  match headerVal with
  | some v => if v = "" then freshId else v
  | none => freshId

/-- The per-operation GraphQL context built in `startServer` (`gateway.ts`
lines 458–464): the spread of the `AuthContext` plus
`correlationId: req.correlationId || generateCorrelationId()`. -/
structure RequestContext where
  user : Option AuthUser
  isAuthenticated : Bool
  correlationId : Option String
deriving DecidableEq, Repr

/-- Building the GraphQL context from the authentication result and the
correlation id attached by the middleware (`req.correlationId`), with a
fresh id as fallback when the attached value is absent or falsy. -/
def buildGraphQLContext (auth : AuthContext) (reqCorrelationId : Option String)
    (freshId : String) : RequestContext :=
  { user := auth.user
    isAuthenticated := auth.isAuthenticated
    correlationId := some (correlationMiddleware reqCorrelationId freshId) }

/-- JS `request.http.headers.set(k, v)`. -/
def setHeader (hs : List (String × String)) (k v : String) : List (String × String) :=
  objSet hs k v

/-- JS `request.http.headers.get(k)`. -/
def getHeader (hs : List (String × String)) (k : String) : Option String :=
  objGet hs k

/-- `AuthenticatedDataSource.willSendRequest` from `gateway.ts` (lines
122–137): when `context.user` is present, set `x-user-id` and
`x-user-roles` (roles joined with commas) on the outbound request; then set
`x-correlation-id` to `context.correlationId || generateCorrelationId()`,
unconditionally. -/
def willSendRequest (ctx : RequestContext) (freshId : String)
    (headers : List (String × String)) : List (String × String) :=
  let headers :=
    match ctx.user with
    | some u => setHeader (setHeader headers "x-user-id" u.id)
        "x-user-roles" (String.intercalate "," u.roles)
    | none => headers
  let correlationId :=
    match ctx.correlationId with
    | some cid => if cid = "" then freshId else cid
    | none => freshId
  setHeader headers "x-correlation-id" correlationId

/-! ## Concrete fixtures used to instantiate the theorems -/

/-- Sample verifier: three recognised tokens, everything else rejected the
way `jwt.verify` rejects a bad signature. -/
def demoVerify : String → Except VerifyError TokenClaims := fun token =>
  if token = "goodtoken" then
    .ok { sub := "alice", email := "alice@example.com", roles := some ["admin", "editor"] }
  else if token = "norolestoken" then
    .ok { sub := "bob", email := "bob@example.com", roles := none }
  else if token = "revokedtoken" then
    .ok { sub := "carol", email := "carol@example.com", roles := some ["admin"] }
  else .error .invalidSignature

/-- Sample revocation store holding exactly the blacklist entry for
`revokedtoken`. -/
def demoRedisGet : String → Option String := fun key =>
  if key = "blacklist:revokedtoken" then some "1" else none

/-! ## Helper lemmas -/

/-- Reading a JS object after a write: the written key holds the new value,
every other key is untouched. -/
theorem objGet_objSet {α : Type} (m : List (String × α)) (k k' : String) (v : α) :
    objGet (objSet m k v) k' = if k' = k then some v else objGet m k' := by
  induction m with
  | nil =>
    by_cases h : k' = k
    · subst h; simp [objGet, objSet, List.find?]
    · have h2 : ¬ k = k' := fun hh => h hh.symm
      simp [objGet, objSet, List.find?, h, h2]
  | cons p t ih =>
    by_cases hp : p.1 = k
    · by_cases h : k' = k
      · subst h; simp [objGet, objSet, hp, List.find?]
      · have h2 : ¬ k = k' := fun hh => h hh.symm
        have hpk : ¬ p.1 = k' := fun hh => h2 (hp.symm.trans hh)
        simp [objGet, objSet, hp, h, h2, List.find?, hpk]
    · by_cases hpk : p.1 = k'
      · have h : ¬ k' = k := fun hh => hp (hpk.trans hh)
        simp [objGet, objSet, hp, h, List.find?, hpk]
      · have ih' := ih
        simp only [objGet] at ih'
        simp [objGet, objSet, hp, List.find?, hpk, ih']

/-- Splitting a list with no separator occurrence yields one segment. -/
theorem splitChars_of_not_mem {sep : Char} {a : List Char} (ha : sep ∉ a) :
    splitChars sep a = [a] := by
  induction a with
  | nil => rfl
  | cons c cs ih =>
    have hc : ¬ c = sep := fun hh => ha (hh ▸ List.mem_cons_self c cs)
    have ih' := ih (fun hh => ha (List.mem_cons_of_mem c hh))
    simp [splitChars, hc, ih']

/-- Splitting at the first separator occurrence peels off the leading
segment. -/
theorem splitChars_append_sep {sep : Char} {a : List Char} (b : List Char)
    (ha : sep ∉ a) :
    splitChars sep (a ++ sep :: b) = a :: splitChars sep b := by
  induction a with
  | nil => simp [splitChars]
  | cons c cs ih =>
    have hc : ¬ c = sep := fun hh => ha (hh ▸ List.mem_cons_self c cs)
    have ih' := ih (fun hh => ha (List.mem_cons_of_mem c hh))
    simp [splitChars, hc, ih']

/-- Filtering a `filterMap` counts the entries whose image satisfies the
predicate. -/
theorem length_filter_filterMap {α β : Type} (l : List α) (f : α → Option β)
    (q : β → Bool) :
    ((l.filterMap f).filter q).length
      = l.countP (fun a => ((f a).map q).getD false) := by
  induction l with
  | nil => rfl
  | cons a t ih =>
    cases hfa : f a with
    | none => simp [List.filterMap_cons, hfa, List.countP_cons, ih]
    | some b =>
      by_cases hb : q b = true
      · simp [List.filterMap_cons, hfa, List.countP_cons, ih, List.filter_cons, hb]
      · simp [List.filterMap_cons, hfa, List.countP_cons, ih, List.filter_cons, hb]

/-- The healthy count of the `/health` handler equals the number of
registered services exactly when every service is healthy. -/
theorem length_filter_healthy_eq_iff (l : List (String × Bool)) :
    (((l.map Prod.snd).filter (fun b => b)).length = l.length)
      ↔ ∀ p ∈ l, p.2 = true := by
  rw [← List.countP_eq_length_filter]
  have hlen : (l.map Prod.snd).length = l.length := List.length_map _ _
  rw [← hlen, List.countP_eq_length]
  constructor
  · intro hall p hp
    exact hall p.2 (List.mem_map_of_mem Prod.snd hp)
  · intro hall b hb
    rcases List.mem_map.mp hb with ⟨p, hp, rfl⟩
    exact hall p hp

/-- `checkServiceHealth` only touches the health map, writing this
service's key. -/
theorem checkServiceHealth_metrics (s : ServiceConfig) (outcome : FetchOutcome)
    (m : GatewayMetrics) :
    (checkServiceHealth s outcome m).2 =
      { m with serviceHealth := setHealth m.serviceHealth s.name (outcomeHealthy outcome) } := by
  cases outcome <;> rfl

/-! ## Claim theorems -/

/-- C1: for every authorization header that is missing, not prefixed with
the bearer scheme, or whose token fails verification (malformed, invalid
signature, expired, or wrong algorithm — every `jwt.verify` failure), or
whose token has a truthy entry in the revocation store, `authenticateRequest`
returns the anonymous context `{ isAuthenticated := false }`.  The function
is total, so no error reaches the caller on any of these paths. -/
theorem authenticateRequest_failures_return_anonymous
    (verify : String → Except VerifyError TokenClaims)
    (redisGet : Option (String → Option String)) :
    (authenticateRequest verify redisGet none
        = { user := none, isAuthenticated := false }) ∧
    (∀ h : String, jsStartsWith h "Bearer " = false →
      authenticateRequest verify redisGet (some h)
        = { user := none, isAuthenticated := false }) ∧
    (∀ (h : String) (e : VerifyError), verify (jsSubstringFrom h 7) = .error e →
      authenticateRequest verify redisGet (some h)
        = { user := none, isAuthenticated := false }) ∧
    (∀ (h : String) (get : String → Option String), redisGet = some get →
      jsTruthy (get ("blacklist:" ++ jsSubstringFrom h 7)) = true →
      authenticateRequest verify redisGet (some h)
        = { user := none, isAuthenticated := false }) := by
  refine ⟨rfl, ?_, ?_, ?_⟩
  · intro h hB
    simp [authenticateRequest, hB]
  · intro h e hv
    by_cases hne : h = ""
    · simp [authenticateRequest, hne]
    · cases hB : jsStartsWith h "Bearer " with
      | false => simp [authenticateRequest, hB]
      | true => simp [authenticateRequest, hne, hB, hv]
  · intro h get hg hbl
    by_cases hne : h = ""
    · simp [authenticateRequest, hne]
    · cases hB : jsStartsWith h "Bearer " with
      | false => simp [authenticateRequest, hB]
      | true =>
        cases hv : verify (jsSubstringFrom h 7) with
        | error e => simp [authenticateRequest, hne, hB, hv]
        | ok claims => simp [authenticateRequest, hne, hB, hv, hg, hbl]

/-- Closed instantiation of `authenticateRequest_failures_return_anonymous`:
a missing header, a non-bearer header, an invalid token, and a revoked token
all produce the anonymous context. -/
theorem authenticateRequest_failures_return_anonymous_witness :
    (authenticateRequest demoVerify (some demoRedisGet) none
        = { user := none, isAuthenticated := false }) ∧
    (authenticateRequest demoVerify (some demoRedisGet) (some "Basic abc")
        = { user := none, isAuthenticated := false }) ∧
    (authenticateRequest demoVerify (some demoRedisGet) (some "Bearer badtoken")
        = { user := none, isAuthenticated := false }) ∧
    (authenticateRequest demoVerify (some demoRedisGet) (some "Bearer revokedtoken")
        = { user := none, isAuthenticated := false }) :=
  ⟨(authenticateRequest_failures_return_anonymous demoVerify (some demoRedisGet)).1,
   (authenticateRequest_failures_return_anonymous demoVerify
      (some demoRedisGet)).2.1 "Basic abc" (by decide),
   (authenticateRequest_failures_return_anonymous demoVerify
      (some demoRedisGet)).2.2.1 "Bearer badtoken" .invalidSignature rfl,
   (authenticateRequest_failures_return_anonymous demoVerify
      (some demoRedisGet)).2.2.2 "Bearer revokedtoken" demoRedisGet rfl (by decide)⟩

/-- C2: for every bearer token the verifier accepts whose blacklist lookup
is not truthy (or with no revocation store configured),
`authenticateRequest` is authenticated with subject, email and roles taken
from the verified claims, and an absent `roles` claim defaults to the empty
list. -/
theorem authenticateRequest_valid_token
    (verify : String → Except VerifyError TokenClaims)
    (redisGet : Option (String → Option String))
    (h : String) (claims : TokenClaims)
    (hB : jsStartsWith h "Bearer " = true)
    (hv : verify (jsSubstringFrom h 7) = .ok claims)
    (hrev : ∀ get, redisGet = some get →
      jsTruthy (get ("blacklist:" ++ jsSubstringFrom h 7)) = false) :
    authenticateRequest verify redisGet (some h) =
      { user := some { id := claims.sub, roles := claims.roles.getD []
                       email := claims.email }
        isAuthenticated := true } ∧
    (claims.roles = none →
      authenticateRequest verify redisGet (some h) =
        { user := some { id := claims.sub, roles := [], email := claims.email }
          isAuthenticated := true }) := by
  have hne : ¬ h = "" := by
    intro he; subst he; exact absurd hB (by decide)
  have main : authenticateRequest verify redisGet (some h) =
      { user := some { id := claims.sub, roles := claims.roles.getD []
                       email := claims.email }
        isAuthenticated := true } := by
    cases hr : redisGet with
    | none => simp [authenticateRequest, hne, hB, hv]
    | some get => simp [authenticateRequest, hne, hB, hv, hrev get hr]
  exact ⟨main, fun hroles => by simpa [hroles] using main⟩

/-- Closed instantiation of `authenticateRequest_valid_token`: a valid
non-revoked token yields the claims verbatim, and a token with no roles
claim yields the empty role list. -/
theorem authenticateRequest_valid_token_witness :
    (authenticateRequest demoVerify (some demoRedisGet) (some "Bearer goodtoken") =
      { user := some { id := "alice", roles := ["admin", "editor"]
                       email := "alice@example.com" }
        isAuthenticated := true }) ∧
    (authenticateRequest demoVerify none (some "Bearer norolestoken") =
      { user := some { id := "bob", roles := [], email := "bob@example.com" }
        isAuthenticated := true }) :=
  ⟨(authenticateRequest_valid_token demoVerify (some demoRedisGet) "Bearer goodtoken"
      { sub := "alice", email := "alice@example.com", roles := some ["admin", "editor"] }
      (by decide) rfl (fun get hget => by cases hget; decide)).1,
   (authenticateRequest_valid_token demoVerify none "Bearer norolestoken"
      { sub := "bob", email := "bob@example.com", roles := none }
      (by decide) rfl (fun get hget => by cases hget)).2 rfl⟩

/-- C3: when every entry of the health map is `true` (in particular when
the map is empty), `GET /health` answers 200 `healthy` and `GET /ready`
answers 200 `ready`; when any entry is `false`, `/health` answers 503
`degraded` and `/ready` answers 503 `not ready`. -/
theorem health_ready_aggregation (m : GatewayMetrics) :
    ((∀ p ∈ m.serviceHealth, p.2 = true) →
      (healthEndpoint m).1.statusCode = 200 ∧
      (healthEndpoint m).1.status = "healthy" ∧
      (readyEndpoint m).1 = (200, "ready")) ∧
    (m.serviceHealth = [] →
      (healthEndpoint m).1.statusCode = 200 ∧
      (healthEndpoint m).1.status = "healthy" ∧
      (readyEndpoint m).1 = (200, "ready")) ∧
    ((∃ p ∈ m.serviceHealth, p.2 = false) →
      (healthEndpoint m).1.statusCode = 503 ∧
      (healthEndpoint m).1.status = "degraded" ∧
      (readyEndpoint m).1 = (503, "not ready")) := by
  refine ⟨?_, ?_, ?_⟩
  · intro hall
    have hcount := (length_filter_healthy_eq_iff m.serviceHealth).mpr hall
    have hallb : (m.serviceHealth.map Prod.snd).all (fun b => b) = true := by
      rw [List.all_eq_true]
      intro b hb
      rcases List.mem_map.mp hb with ⟨p, hp, rfl⟩
      exact hall p hp
    refine ⟨?_, ?_, ?_⟩ <;> simp [healthEndpoint, readyEndpoint, hcount, hallb]
  · intro hnil
    refine ⟨?_, ?_, ?_⟩ <;> simp [healthEndpoint, readyEndpoint, hnil]
  · intro hex
    rcases hex with ⟨p, hp, hpf⟩
    have hcount : ((m.serviceHealth.map Prod.snd).filter (fun b => b)).length
        ≠ m.serviceHealth.length := by
      intro heq
      have := (length_filter_healthy_eq_iff m.serviceHealth).mp heq p hp
      rw [hpf] at this
      exact Bool.false_ne_true this
    have hallb : (m.serviceHealth.map Prod.snd).all (fun b => b) = false := by
      rcases hx : (m.serviceHealth.map Prod.snd).all (fun b => b) with _ | _
      · rfl
      · have := (List.all_eq_true.mp hx) p.2 (List.mem_map_of_mem Prod.snd hp)
        rw [hpf] at this
        exact absurd this Bool.false_ne_true
    have hne : ¬ m.serviceHealth.length = 0 := by
      intro h0
      rw [List.length_eq_zero] at h0
      rw [h0] at hp
      exact List.not_mem_nil p hp
    refine ⟨?_, ?_, ?_⟩ <;> simp [healthEndpoint, readyEndpoint, hcount, hallb, hne]

/-- Closed instantiation of `health_ready_aggregation`: an all-healthy
registry, an empty registry, and a registry with one failed service. -/
theorem health_ready_aggregation_witness :
    ((healthEndpoint ⟨0, 0, [("A", true), ("B", true)]⟩).1.statusCode = 200 ∧
      (healthEndpoint ⟨0, 0, [("A", true), ("B", true)]⟩).1.status = "healthy" ∧
      (readyEndpoint ⟨0, 0, [("A", true), ("B", true)]⟩).1 = (200, "ready")) ∧
    ((healthEndpoint ⟨0, 0, []⟩).1.statusCode = 200 ∧
      (healthEndpoint ⟨0, 0, []⟩).1.status = "healthy" ∧
      (readyEndpoint ⟨0, 0, []⟩).1 = (200, "ready")) ∧
    ((healthEndpoint ⟨0, 0, [("A", true), ("B", false)]⟩).1.statusCode = 503 ∧
      (healthEndpoint ⟨0, 0, [("A", true), ("B", false)]⟩).1.status = "degraded" ∧
      (readyEndpoint ⟨0, 0, [("A", true), ("B", false)]⟩).1 = (503, "not ready")) :=
  ⟨(health_ready_aggregation ⟨0, 0, [("A", true), ("B", true)]⟩).1 (by decide),
   (health_ready_aggregation ⟨0, 0, []⟩).2.1 rfl,
   (health_ready_aggregation ⟨0, 0, [("A", true), ("B", false)]⟩).2.2
     ⟨("B", false), by decide, rfl⟩⟩

/-- C9: the `/health` handler only reads the metrics — it returns the state
unchanged — so two consecutive calls with no state change in between report
the same `services` map (and the same whole response). -/
theorem healthEndpoint_read_only_idempotent (m : GatewayMetrics) :
    (healthEndpoint m).2 = m ∧
    (healthEndpoint ((healthEndpoint m).2)).1.services = (healthEndpoint m).1.services ∧
    (healthEndpoint ((healthEndpoint m).2)).1 = (healthEndpoint m).1 :=
  ⟨rfl, rfl, rfl⟩

/-- C6: `checkServiceHealth` never throws (it is a total function of the
fetch outcome): it returns and records `true` exactly on a 2xx response and
`false` on a non-2xx response, a network error, or a timeout, writing only
this service's key; and in a full polling round each service's recorded
health is determined by its own fetch outcome alone — one failing service
leaves every other service's entry exactly as its own poll dictates. -/
theorem checkServiceHealth_records_and_isolates :
    (∀ (s : ServiceConfig) (outcome : FetchOutcome) (m : GatewayMetrics),
      (checkServiceHealth s outcome m).1 = outcomeHealthy outcome ∧
      (checkServiceHealth s outcome m).2.serviceHealth
        = setHealth m.serviceHealth s.name (outcomeHealthy outcome) ∧
      lookupHealth (checkServiceHealth s outcome m).2.serviceHealth s.name
        = some (outcomeHealthy outcome)) ∧
    (∀ (services : List ServiceConfig) (outcomes : String → FetchOutcome)
        (m : GatewayMetrics) (k : String),
      lookupHealth (runHealthChecks services outcomes m).serviceHealth k =
        if k ∈ services.map ServiceConfig.name then some (outcomeHealthy (outcomes k))
        else lookupHealth m.serviceHealth k) := by
  have hrec : ∀ (s : ServiceConfig) (outcome : FetchOutcome) (m : GatewayMetrics),
      (checkServiceHealth s outcome m).1 = outcomeHealthy outcome ∧
      (checkServiceHealth s outcome m).2.serviceHealth
        = setHealth m.serviceHealth s.name (outcomeHealthy outcome) ∧
      lookupHealth (checkServiceHealth s outcome m).2.serviceHealth s.name
        = some (outcomeHealthy outcome) := by
    intro s outcome m
    refine ⟨?_, ?_, ?_⟩
    · cases outcome <;> rfl
    · rw [checkServiceHealth_metrics]
    · rw [checkServiceHealth_metrics]
      simp [lookupHealth, setHealth, objGet_objSet]
  refine ⟨hrec, ?_⟩
  intro services outcomes
  induction services with
  | nil => intro m k; simp [runHealthChecks, lookupHealth]
  | cons s t ih =>
    intro m k
    have hstep : runHealthChecks (s :: t) outcomes m
        = runHealthChecks t outcomes (checkServiceHealth s (outcomes s.name) m).2 := rfl
    rw [hstep, ih]
    rw [checkServiceHealth_metrics]
    by_cases ht : k ∈ t.map ServiceConfig.name
    · simp [ht]
    · by_cases hk : k = s.name
      · subst hk
        simp [ht, lookupHealth, setHealth, objGet_objSet]
      · simp [ht, hk, lookupHealth, setHealth, objGet_objSet]

/-- C4: an entry is kept by the parser exactly when splitting it on `=`
gives a non-empty name part and a non-empty url part (entries missing
either are dropped); on `"A=http://a,BAD,B=http://b"` the registry holds
exactly the services `A` and `B`. -/
theorem parseServiceList_drops_malformed :
    parseServiceList "A=http://a,BAD,B=http://b" =
      [{ name := "A", url := "http://a", healthCheck := "http://a/health" },
       { name := "B", url := "http://b", healthCheck := "http://b/health" }] ∧
    (∀ pair : String, (mkServiceEntry pair).isSome = true ↔
      ∃ name url rest, jsSplit '=' pair = name :: url :: rest ∧
        name ≠ "" ∧ url ≠ "") := by
  refine ⟨by decide, ?_⟩
  intro pair
  cases hsp : jsSplit '=' pair with
  | nil => simp [mkServiceEntry, hsp]
  | cons name tl =>
    cases tl with
    | nil => simp [mkServiceEntry, hsp]
    | cons url rest =>
      by_cases hn : name = ""
      · simp [mkServiceEntry, hsp, hn]
      · by_cases hu : url = ""
        · simp [mkServiceEntry, hsp, hn, hu]
        · simp [mkServiceEntry, hsp, hn, hu]
          exact ⟨name, url, ⟨rfl, rfl⟩, hn, hu⟩

/-- Counterexample to C5 as stated: with
`SERVICES = "A=http://x,a=http://y"` both entries normalize to the name
`A`, yet the resulting registry holds two descriptors named `A`, not a
single last-one-wins descriptor. -/
theorem parseServiceList_duplicate_names_counterexample :
    (parseServiceList "A=http://x,a=http://y").map (fun c => (c.name, c.url)) =
      [("A", "http://x"), ("A", "http://y")] ∧
    ((parseServiceList "A=http://x,a=http://y").filter
        (fun c => c.name = "A")).length = 2 ∧
    parseServiceList "A=http://x,a=http://y" ≠
      [{ name := "A", url := "http://y", healthCheck := "http://y/health" }] := by
  refine ⟨by decide, by decide, by decide⟩

/-- C5 (amended): after uppercase normalization the parser does not collapse
duplicate names — the registry holds one descriptor per well-formed entry,
in input order, so a name that two well-formed entries share occurs twice.
The count of descriptors carrying a given name equals the count of kept
entries normalizing to that name. -/
theorem parseServiceList_keeps_duplicate_names (env n : String) :
    ((parseServiceList env).filter (fun c => c.name = n)).length =
      (serviceEntries env).countP
        (fun pair => ((mkServiceEntry pair).map (fun c => decide (c.name = n))).getD false) := by
  by_cases henv : env = ""
  · subst henv
    have : serviceEntries "" = [] := by decide
    simp [parseServiceList, this]
  · have hps : parseServiceList env = (serviceEntries env).filterMap mkServiceEntry := by
      simp [parseServiceList, henv]
    rw [hps, length_filter_filterMap]

/-- C10: a `NAME=URL` entry whose URL itself contains `=` is not rejected
and not kept whole: the destructuring keeps only the first two segments of
the split, so the stored url (and the derived health-check URL) is the URL
cut off at its first `=`.  Concretely, `A=http://a/p?x=1` is stored with
url `http://a/p?x`. -/
theorem parseServiceList_truncates_url_at_equals :
    parseServiceList "A=http://a/p?x=1,B=http://b" =
      [{ name := "A", url := "http://a/p?x", healthCheck := "http://a/p?x/health" },
       { name := "B", url := "http://b", healthCheck := "http://b/health" }] ∧
    (∀ name u w : String, '=' ∉ name.data → '=' ∉ u.data →
      name ≠ "" → u ≠ "" →
      mkServiceEntry (name ++ "=" ++ u ++ "=" ++ w) =
        some { name := jsToUpper name, url := jsTrim u
               healthCheck := jsTrim u ++ "/health" }) := by
  refine ⟨by decide, ?_⟩
  intro name u w hname hu hn0 hu0
  have hdata : (name ++ "=" ++ u ++ "=" ++ w).data
      = name.data ++ '=' :: (u.data ++ '=' :: w.data) := by
    simp [String.data_append]
  have hsplit : jsSplit '=' (name ++ "=" ++ u ++ "=" ++ w)
      = name :: u :: (splitChars '=' w.data).map List.asString := by
    unfold jsSplit
    rw [hdata, splitChars_append_sep _ hname, splitChars_append_sep _ hu]
    rfl
  have hn' : ¬ name = "" := hn0
  have hu' : ¬ u = "" := hu0
  simp [mkServiceEntry, hsplit, hn', hu']

/-- Closed instantiation of `parseServiceList_truncates_url_at_equals`: the
entry `SVC=http://h/x?q=1` is kept with the url truncated at the first `=`
of the URL. -/
theorem parseServiceList_truncates_url_at_equals_witness :
    mkServiceEntry "SVC=http://h/x?q=1" =
      some { name := "SVC", url := "http://h/x?q"
             healthCheck := "http://h/x?q/health" } :=
  parseServiceList_truncates_url_at_equals.2 "SVC" "http://h/x?q" "1"
    (by decide) (by decide) (by decide) (by decide)

/-- C7: on every outbound downstream call the interceptor sets
`x-correlation-id` (some value is always present afterwards), and it sets
`x-user-id` / `x-user-roles` — to the user's id and comma-joined roles —
exactly when the context carries a user; for an anonymous context, requests
that arrived without identity headers go out without them. -/
theorem willSendRequest_identity_headers (ctx : RequestContext) (freshId : String)
    (headers : List (String × String))
    (hid : getHeader headers "x-user-id" = none)
    (hroles : getHeader headers "x-user-roles" = none) :
    (∃ cid, getHeader (willSendRequest ctx freshId headers) "x-correlation-id" = some cid) ∧
    ((getHeader (willSendRequest ctx freshId headers) "x-user-id").isSome = ctx.user.isSome) ∧
    ((getHeader (willSendRequest ctx freshId headers) "x-user-roles").isSome = ctx.user.isSome) ∧
    (∀ u, ctx.user = some u →
      getHeader (willSendRequest ctx freshId headers) "x-user-id" = some u.id ∧
      getHeader (willSendRequest ctx freshId headers) "x-user-roles"
        = some (String.intercalate "," u.roles)) := by
  simp only [getHeader] at hid hroles
  refine ⟨?_, ?_, ?_, ?_⟩
  · cases hc : ctx.correlationId with
    | none =>
      exact ⟨freshId, by simp [willSendRequest, hc, getHeader, setHeader, objGet_objSet]⟩
    | some cid =>
      by_cases hcid : cid = ""
      · exact ⟨freshId, by simp [willSendRequest, hc, hcid, getHeader, setHeader, objGet_objSet]⟩
      · exact ⟨cid, by simp [willSendRequest, hc, hcid, getHeader, setHeader, objGet_objSet]⟩
  · cases hu : ctx.user with
    | none => simp [willSendRequest, hu, getHeader, setHeader, objGet_objSet, hid]
    | some u => simp [willSendRequest, hu, getHeader, setHeader, objGet_objSet]
  · cases hu : ctx.user with
    | none => simp [willSendRequest, hu, getHeader, setHeader, objGet_objSet, hroles]
    | some u => simp [willSendRequest, hu, getHeader, setHeader, objGet_objSet]
  · intro u hu
    constructor <;> simp [willSendRequest, hu, getHeader, setHeader, objGet_objSet]

/-- Closed instantiation of `willSendRequest_identity_headers`: an
authenticated context sends its id and comma-joined roles, an anonymous one
sends no identity headers, and both carry a correlation id. -/
theorem willSendRequest_identity_headers_witness :
    (∃ cid, getHeader (willSendRequest
        { user := some { id := "alice", roles := ["admin", "editor"]
                         email := "alice@example.com" }
          isAuthenticated := true, correlationId := some "cid-1" } "fresh" [])
        "x-correlation-id" = some cid) ∧
    getHeader (willSendRequest
        { user := some { id := "alice", roles := ["admin", "editor"]
                         email := "alice@example.com" }
          isAuthenticated := true, correlationId := some "cid-1" } "fresh" [])
        "x-user-id" = some "alice" ∧
    getHeader (willSendRequest
        { user := some { id := "alice", roles := ["admin", "editor"]
                         email := "alice@example.com" }
          isAuthenticated := true, correlationId := some "cid-1" } "fresh" [])
        "x-user-roles" = some "admin,editor" ∧
    (getHeader (willSendRequest
        { user := none, isAuthenticated := false, correlationId := some "cid-2" }
        "fresh" []) "x-user-id").isSome = false :=
  ⟨(willSendRequest_identity_headers
      { user := some { id := "alice", roles := ["admin", "editor"]
                       email := "alice@example.com" }
        isAuthenticated := true, correlationId := some "cid-1" } "fresh" [] rfl rfl).1,
   ((willSendRequest_identity_headers
      { user := some { id := "alice", roles := ["admin", "editor"]
                       email := "alice@example.com" }
        isAuthenticated := true, correlationId := some "cid-1" } "fresh" [] rfl rfl).2.2.2
      { id := "alice", roles := ["admin", "editor"], email := "alice@example.com" } rfl).1,
   ((willSendRequest_identity_headers
      { user := some { id := "alice", roles := ["admin", "editor"]
                       email := "alice@example.com" }
        isAuthenticated := true, correlationId := some "cid-1" } "fresh" [] rfl rfl).2.2.2
      { id := "alice", roles := ["admin", "editor"], email := "alice@example.com" } rfl).2,
   (willSendRequest_identity_headers
      { user := none, isAuthenticated := false, correlationId := some "cid-2" }
      "fresh" [] rfl rfl).2.1⟩

/-- C8: an inbound well-formed (non-empty) `x-correlation-id` header value
survives the middleware, the GraphQL context builder and the forwarding
interceptor unchanged, reaching every downstream call; with no inbound
header the middleware attaches the freshly generated identifier; and for a
fixed timestamp the generator is injective in the random suffix, so two
ids generated at the same millisecond differ whenever their random
suffixes differ. -/
theorem correlationId_propagated_unchanged (v : String) (hv : v ≠ "")
    (auth : AuthContext) (f1 f2 f3 : String) (headers : List (String × String)) :
    getHeader (willSendRequest (buildGraphQLContext auth
        (some (correlationMiddleware (some v) f1)) f2) f3 headers) "x-correlation-id"
      = some v ∧
    (∀ fresh : String, correlationMiddleware none fresh = fresh) ∧
    (∀ (now : Nat) (s1 s2 : String),
      generateCorrelationId now s1 = generateCorrelationId now s2 ↔ s1 = s2) := by
  refine ⟨?_, fun _ => rfl, ?_⟩
  · have hmid1 : correlationMiddleware (some v) f1 = v := by simp [correlationMiddleware, hv]
    have hmid2 : correlationMiddleware (some v) f2 = v := by simp [correlationMiddleware, hv]
    simp [buildGraphQLContext, hmid1, hmid2, willSendRequest, hv,
      getHeader, setHeader, objGet_objSet]
  · intro now s1 s2
    constructor
    · intro h
      apply String.ext
      have hd := congrArg String.data h
      simpa [generateCorrelationId] using hd
    · intro h
      rw [h]

/-- Closed instantiation of `correlationId_propagated_unchanged`: the
inbound header value `req-42` reaches the downstream call unchanged. -/
theorem correlationId_propagated_unchanged_witness :
    getHeader (willSendRequest (buildGraphQLContext { isAuthenticated := false }
        (some (correlationMiddleware (some "req-42") "gw-1-aaaaaaaaa")) "gw-2-bbbbbbbbb")
        "gw-3-ccccccccc" []) "x-correlation-id" = some "req-42" :=
  (correlationId_propagated_unchanged "req-42" (by decide) { isAuthenticated := false }
    "gw-1-aaaaaaaaa" "gw-2-bbbbbbbbb" "gw-3-ccccccccc" []).1

end PlasmaGateway
